import Mathlib

/-!
Verification of the conversational content-generation assistant
(`create_idea`): a shallow embedding of the moderation policy, the idea
and post generation stages, and the ProxyAPI client's parameter and error
handling, with theorems checking the natural-language specification.
-/

set_option maxRecDepth 4000

/-! ## String utilities mirroring Python semantics -/

/-- Python `str.lower()` restricted to the alphabets this program uses:
ASCII `A`-`Z` and Cyrillic `А`-`Я`, `Ё`. -/
def pyLowerChar (c : Char) : Char :=
  let n := c.toNat
  if 65 ≤ n ∧ n ≤ 90 then Char.ofNat (n + 32)
  else if 1040 ≤ n ∧ n ≤ 1071 then Char.ofNat (n + 32)
  else if n = 1025 then Char.ofNat 1105
  else c

/-- Python `str.lower()` on a whole string. -/
def pyLower (s : String) : String :=
  String.mk (s.data.map pyLowerChar)

/-- Does the first list start with the second one? -/
def charsStartWith : List Char → List Char → Bool
  | _, [] => true
  | [], _ :: _ => false
  | a :: as, b :: bs => a == b && charsStartWith as bs

/-- Python substring test `needle in hay` on character lists. -/
def charsContain : List Char → List Char → Bool
  | [], needle => needle.isEmpty
  | a :: t, needle => charsStartWith (a :: t) needle || charsContain t needle

/-- Python `needle in hay` for strings. -/
def strContains (hay needle : String) : Bool :=
  charsContain hay.data needle.data

/-- Python `hay.startswith(needle)` for strings. -/
def strStartsWith (hay needle : String) : Bool :=
  charsStartWith hay.data needle.data

/-! ## JSON values (result of Python `json.loads`) -/

/-- A parsed JSON value as produced by `json.loads`. -/
inductive JsonVal where
  | jnull
  | jbool (b : Bool)
  | jint (n : Int)
  | jstr (s : String)
  | jlist (xs : List JsonVal)
  | jobj (fields : List (String × JsonVal))

/-- Lookup of a key in an association list of object entries (first
match, as in a parsed JSON object whose keys are unique). -/
def lookupEntry (key : String) : List (String × JsonVal) → Option JsonVal
  | [] => none
  | kv :: t => if kv.1 == key then some kv.2 else lookupEntry key t

/-- Python dict assignment on the entry list: replace the value at the
first occurrence of the key, else append the binding at the end. -/
def setEntry (key : String) (v : JsonVal) :
    List (String × JsonVal) → List (String × JsonVal)
  | [] => [(key, v)]
  | kv :: t => if kv.1 == key then (kv.1, v) :: t else kv :: setEntry key v t

/-- Python `key in dict` (on non-dicts the program's checks also fail;
both paths raise the same error class, so `false` is the faithful
status-level embedding). -/
def JsonVal.hasField : JsonVal → String → Bool
  | .jobj fields, key => (lookupEntry key fields).isSome
  | _, _ => false

/-- Python `dict[key]` (`jnull` when absent; the program only reads keys
it has checked for presence). -/
def JsonVal.getField : JsonVal → String → JsonVal
  | .jobj fields, key => (lookupEntry key fields).getD .jnull
  | _, _ => .jnull

/-- Python `dict[key] = v` (a no-op shape on non-dicts, which the
program never exercises). -/
def JsonVal.setField : JsonVal → String → JsonVal → JsonVal
  | .jobj fields, key, v => .jobj (setEntry key v fields)
  | other, _, _ => other

/-- Python `isinstance(v, int)` on a JSON value (`bool` is a subclass of
`int` in Python). -/
def JsonVal.pyIsInt : JsonVal → Bool
  | .jint _ => true
  | .jbool _ => true
  | _ => false

/-- Python `isinstance(v, list)` on a JSON value. -/
def JsonVal.pyIsList : JsonVal → Bool
  | .jlist _ => true
  | _ => false

/-- Python truthiness of a JSON value. -/
def JsonVal.pyTruthy : JsonVal → Bool
  | .jnull => false
  | .jbool b => b
  | .jint n => n != 0
  | .jstr s => !s.isEmpty
  | .jlist xs => !xs.isEmpty
  | .jobj fields => !fields.isEmpty

/-! ## `src/services/idea_generator.py` — `IdeaGenerator.generate_ideas`

The validation stage that follows a successful `json.loads` of the API
response (lines 94-126 of the source): container checks, per-item field
checks over the first five items, id repair, truncation to five. -/

/-- Required fields of one idea item (source line 109). -/
def ideaRequiredFields : List String :=
  ["id", "title", "description", "key_elements"]

/-- The id repair of source lines 116-117: a non-integer `id` is
replaced by the item's 1-based position `i`. -/
def repairIdea (i : Nat) (idea : JsonVal) : JsonVal :=
  if (idea.getField "id").pyIsInt then idea
  else idea.setField "id" (.jint i)

/-- Validation/repair of a single idea item at 1-based position `i`
(source lines 110-120): every required field present, `id` reassigned to
`i` when not an integer, `key_elements` must be a list. -/
def validateIdeaItem (i : Nat) (idea : JsonVal) : Except String JsonVal :=
  if ideaRequiredFields.all (fun f => idea.hasField f) then
    if ((repairIdea i idea).getField "key_elements").pyIsList then
      .ok (repairIdea i idea)
    else
      .error "key_elements must be a list"
  else
    .error "missing required field"

/-- The loop `for i, idea in enumerate(ideas[:5], 1)` with the per-item
validation, collecting the (possibly repaired) items. -/
def validateIdeaItems (i : Nat) : List JsonVal → Except String (List JsonVal)
  | [] => .ok []
  | idea :: rest =>
      match validateIdeaItem i idea with
      | .error e => .error e
      | .ok idea =>
          match validateIdeaItems (i + 1) rest with
          | .error e => .error e
          | .ok rest => .ok (idea :: rest)

/-- Embedding of `IdeaGenerator.generate_ideas` from the parsed JSON response onward
(source lines 94-126): `ideas` container present and a list, at least 5
items, validate/repair the first five, truncate to five. -/
def generate_ideas (result : JsonVal) : Except String (List JsonVal) :=
  if !result.hasField "ideas" then
    .error "missing ideas field"
  else
    match result.getField "ideas" with
    | .jlist ideas =>
        if ideas.length < 5 then
          .error "fewer than 5 ideas"
        else
          validateIdeaItems 1 (ideas.take 5)
    | _ => .error "ideas field is not a list"

/-- Well-formedness of a single idea item as the validation loop sees
it: all required fields present, `key_elements` a list (the `id` value
may be anything). -/
def wellFormedIdea (idea : JsonVal) : Bool :=
  ideaRequiredFields.all (fun f => idea.hasField f) &&
    (idea.getField "key_elements").pyIsList

/-- The whole repaired batch: item at offset `k` is repaired at position
`i + k`. -/
def repairIdeas (i : Nat) : List JsonVal → List JsonVal
  | [] => []
  | a :: t => repairIdea i a :: repairIdeas (i + 1) t

/-- The `id` values of a generated batch (empty on failure). -/
def ideasIdList : Except String (List JsonVal) → List JsonVal
  | .ok l => l.map (fun idea => idea.getField "id")
  | .error _ => []

/-! ## `src/api/proxyapi_client.py` — model adaptation (lines 102-166) -/

/-- Source line 119 (`new_models`): prefixes that require
`max_completion_tokens`. -/
def new_models : List String :=
  ["gpt-5", "o1-preview", "o1-mini", "o3-mini", "o3"]

/-- Source line 153 (`fixed_temp_models`): prefixes whose temperature is
fixed, so the parameter is omitted. -/
def fixed_temp_models : List String :=
  ["gpt-5", "o1-preview", "o1-mini", "o3-mini", "o3"]

/-- Embedding of `ProxyAPIClient._uses_max_completion_tokens` (lines 102-132). -/
def uses_max_completion_tokens (model : String) : Bool :=
  new_models.any (fun m => strStartsWith (pyLower model) m)

/-- Embedding of `ProxyAPIClient._supports_custom_temperature` (lines 134-166). -/
def supports_custom_temperature (model : String) : Bool :=
  !fixed_temp_models.any (fun m => strStartsWith (pyLower model) m)

/-- Which field name carries the token limit in the outgoing request. -/
inductive TokenLimitField where
  | max_tokens (n : Nat)
  | max_completion_tokens (n : Nat)
deriving DecidableEq, Repr

/-- The parameter-adaptation outcome of `chat_completion` (lines
214-237): whether a `temperature` field is present, and how the token
limit is passed (`none` when `max_tokens` is falsy in Python). -/
structure ChatRequestParams where
  temperatureIncluded : Bool
  tokenLimit : Option TokenLimitField
deriving DecidableEq, Repr

/-- Construction of the outgoing request parameters from the model name
and the optional token limit (source lines 214-235). -/
def buildChatRequestParams (model : String) (max_tokens : Option Nat) :
    ChatRequestParams :=
  { temperatureIncluded := supports_custom_temperature model
    tokenLimit :=
      match max_tokens with
      | none => none
      | some n =>
          if n = 0 then none
          else if uses_max_completion_tokens model then
            some (.max_completion_tokens n)
          else
            some (.max_tokens n) }

/-! ## `src/api/proxyapi_client.py` — `chat_completion` (lines 168-314) -/

/-- The `message` object of the first choice. -/
structure ChatMessagePart where
  refusal : Option String
  content : Option String

/-- One element of `response.choices`. -/
structure ChatChoice where
  finish_reason : String
  message : ChatMessagePart

/-- The `ChatCompletion` object returned by the SDK call. -/
structure ChatResponse where
  choices : List ChatChoice

/-- What the awaited SDK call `client.chat.completions.create` did:
returned a response, or raised one of the exception classes the
`except` clauses distinguish. -/
inductive ChatOutcome where
  | response (r : ChatResponse)
  | timeoutRaised
  | connectErrorRaised
  | otherRaised (msg : String)

/-- The exception classes `chat_completion` can raise
(`core/exceptions.py`). -/
inductive ApiException where
  | generationError (msg : String)
  | apiConnectionError (msg : String)
  | apiRateLimitError (msg : String) (retryAfter : Nat)
  | apiAuthenticationError (msg : String)
  | apiError (msg : String)

/-- Python `str(e)` of a raised exception (`BotException` stores the
message). -/
def ApiException.msgOf : ApiException → String
  | .generationError m => m
  | .apiConnectionError m => m
  | .apiRateLimitError m _ => m
  | .apiAuthenticationError m => m
  | .apiError m => m

/-- The final `except Exception` clause of `chat_completion` (lines
290-314): keyword-classify `str(e).lower()`. -/
def classifyOtherException (msg : String) : ApiException :=
  if strContains (pyLower msg) "429" || strContains (pyLower msg) "rate limit" then
    .apiRateLimitError "Превышен лимит запросов к API. Попробуйте позже" 60
  else if strContains (pyLower msg) "401" ||
      strContains (pyLower msg) "unauthorized" ||
      strContains (pyLower msg) "api key" then
    .apiAuthenticationError "Неверный API ключ или недостаточно прав"
  else
    .apiError ("Ошибка API: " ++ msg)

/-- Python truthiness of `message.refusal`. -/
def refusalTruthy (m : ChatMessagePart) : Bool :=
  match m.refusal with
  | some s => !s.isEmpty
  | none => false

/-- The try-body of `chat_completion` after a response arrived (lines
249-274): the message of the `GenerationError` it raises, or the content
on success. -/
def extractChatContent (r : ChatResponse) : Except String String :=
  match r.choices with
  | [] => .error "API вернул пустой ответ без choices"
  | choice :: _ =>
      if refusalTruthy choice.message then
        .error ("Модель отказала в генерации контента: " ++
          (choice.message.refusal.getD ""))
      else
        match choice.message.content with
        | none =>
            .error ("API вернул пустой контент (finish_reason: " ++
              choice.finish_reason ++ ")")
        | some c =>
            if c.isEmpty then
              .error ("API вернул пустой контент (finish_reason: " ++
                choice.finish_reason ++ ")")
            else
              .ok c

/-- Embedding of `ProxyAPIClient.chat_completion` (lines 168-314). The
`GenerationError` raised inside the try-body for zero choices, refusal
or empty content is itself an `Exception`, so it is caught by the final
`except Exception` clause (line 290) and re-classified by keywords just
like an SDK failure. -/
def chat_completion (o : ChatOutcome) : Except ApiException String :=
  match o with
  | .timeoutRaised =>
      .error (.apiConnectionError "Превышено время ожидания ответа от API")
  | .connectErrorRaised =>
      .error (.apiConnectionError
        "Не удалось подключиться к API. Проверьте интернет-соединение")
  | .otherRaised msg => .error (classifyOtherException msg)
  | .response r =>
      match extractChatContent r with
      | .ok c => .ok c
      | .error genMsg => .error (classifyOtherException genMsg)

/-- Discriminator on exception classes: `GenerationError`. -/
def ApiException.isGen : ApiException → Bool
  | .generationError _ => true
  | _ => false

/-- Discriminator on exception classes: the generic `APIError`. -/
def ApiException.isGenericApi : ApiException → Bool
  | .apiError _ => true
  | _ => false

/-- Discriminator: did the call raise a `GenerationError`? -/
def isGenerationError (r : Except ApiException String) : Bool :=
  match r with
  | .error e => e.isGen
  | .ok _ => false

/-- Discriminator: did the call raise the generic `APIError`? -/
def isGenericApiError (r : Except ApiException String) : Bool :=
  match r with
  | .error e => e.isGenericApi
  | .ok _ => false

/-! ## `src/services/post_generator.py` — `generate_post_text`
(lines 42-154) -/

/-- The fallback trigger test on `str(e).lower()` (lines 97-100). -/
def fallbackSignature (errText : String) : Bool :=
  strContains (pyLower errText) "пустой контент" ||
    strContains (pyLower errText) "отказала" ||
    strContains (pyLower errText) "finish_reason: length"

/-- Parsing and validation of the stage-1 response (lines 115-145):
`json.loads`, the `post` container, required `title`/`content`, defaults
for `hashtags` and `call_to_action`. `decode` stands for `json.loads`
(`none` models `JSONDecodeError`). -/
def parsePostResponse (decode : String → Option JsonVal) (resp : String) :
    Except String JsonVal :=
  match decode resp with
  | none => .error "Ошибка парсинга ответа при генерации поста"
  | some result =>
      if !result.hasField "post" then
        .error "Отсутствует поле 'post' в ответе"
      else
        let post_data := result.getField "post"
        if !post_data.hasField "title" then
          .error "Отсутствует поле 'title' в данных поста"
        else if !post_data.hasField "content" then
          .error "Отсутствует поле 'content' в данных поста"
        else
          let post_data :=
            if !post_data.hasField "hashtags" ||
                !(post_data.getField "hashtags").pyTruthy then
              post_data.setField "hashtags" (.jlist [])
            else post_data
          let post_data :=
            if !post_data.hasField "call_to_action" then
              post_data.setField "call_to_action" (.jstr "")
            else post_data
          .ok post_data

/-- The outer `except` clauses of `generate_post_text` (lines 147-154):
a `GenerationError` is re-raised, anything else is wrapped into a
`GenerationError`; the result is always the final `GenerationError`
message. -/
def wrapPostTextError (e : ApiException) : String :=
  match e with
  | .generationError m => m
  | e => "Не удалось сгенерировать текст поста: " ++ e.msgOf

/-- A run of `generate_post_text`: the models of the chat-completion
requests it issued, in order, and the outcome (post data, or the message
of the raised `GenerationError`). -/
structure PostGenRun where
  models : List String
  outcome : Except String JsonVal

/-- Embedding of `PostGenerator.generate_post_text` (lines 42-154). `primaryModel` is
`settings.model_final_post`; `o1` is the outcome of the first
chat-completion request, `o2` of the fallback request (consulted only
when a fallback request is issued); `decode` stands for `json.loads`. -/
def generate_post_text (decode : String → Option JsonVal)
    (primaryModel : String) (o1 o2 : ChatOutcome) : PostGenRun :=
  match chat_completion o1 with
  | .ok resp => ⟨[primaryModel], parsePostResponse decode resp⟩
  | .error (.generationError msg) =>
      if fallbackSignature msg then
        match chat_completion o2 with
        | .ok resp => ⟨[primaryModel, "gpt-4o"], parsePostResponse decode resp⟩
        | .error e2 => ⟨[primaryModel, "gpt-4o"], .error (wrapPostTextError e2)⟩
      else
        ⟨[primaryModel], .error msg⟩
  | .error e => ⟨[primaryModel], .error (wrapPostTextError e)⟩

/-! ## `src/services/moderation.py` -/

/-- Source lines 187-190: the profanity marker list. -/
def offensive_patterns : List String :=
  ["блять", "бля", "хуй", "пизд", "ебать", "еба", "сука",
   "пидор", "мудак", "долбоеб", "уебок"]

/-- Embedding of `ModerationService.detect_offensive_content` (lines 173-193). -/
def detect_offensive_content (text : String) : Bool :=
  offensive_patterns.any (fun p => strContains (pyLower text) p)

/-- Embedding of `ModerationService.should_end_conversation` (lines 161-171), with
`settings.max_off_topic_attempts` made explicit. -/
def should_end_conversation (max_off_topic_attempts attempt_number : Nat) :
    Bool :=
  attempt_number > max_off_topic_attempts

/-- Default of `settings.max_off_topic_attempts`
(`config/settings.py` line 154). -/
def max_off_topic_attempts_default : Nat := 3

/-- The structural validation in `check_relevance` (lines 91-95): the
parsed verdict must contain all of `is_relevant`, `reason` and
`suggestion`. -/
def check_relevance_validate (result : JsonVal) : Except String JsonVal :=
  if (["is_relevant", "reason", "suggestion"].all
      (fun f => result.hasField f)) then
    .ok result
  else
    .error "Отсутствует поле в ответе модерации"

/-- Embedding of `ModerationService.check_relevance` (lines 37-109) from the
chat-completion outcome onward: any exception from the call is wrapped
into a `ModerationError`, a `JSONDecodeError` becomes a
`ModerationError`, then the structural validation runs. The error value
is the message of the raised `ModerationError`. -/
def check_relevance (decode : String → Option JsonVal) (o : ChatOutcome) :
    Except String JsonVal :=
  match chat_completion o with
  | .error e => .error ("Не удалось проверить релевантность: " ++ e.msgOf)
  | .ok resp =>
      match decode resp with
      | none => .error "Ошибка парсинга ответа модерации"
      | some result => check_relevance_validate result

/-! ## `src/bot/handlers/conversation.py` -/

/-- What `check_and_moderate` answers to the user. -/
inductive ModReply where
  | noReply
  | respectfulToneRequest
  | offensiveFarewell
  | redirection (attempt : Nat) (suggestion : JsonVal)

/-- Outcome of `moderation_service.check_relevance` as seen by
`check_and_moderate`: a verdict dict, or a raised `ModerationError`. -/
inductive RelevanceOutcome where
  | verdict (v : JsonVal)
  | moderationFailure (msg : String)

/-- Effect of one `check_and_moderate` call: the value stored under
`off_topic_count` by `state.update_data` (unchanged when no update
happens), whether `state.clear()` ran, the boolean return value, and the
reply sent. -/
structure ModerationStep where
  off_topic_count : Nat
  cleared : Bool
  accepted : Bool
  reply : ModReply

/-- Embedding of `check_and_moderate` (conversation.py lines 125-212).
`current_step` and `bot_question` reach only the moderation prompt and
the reply text; `rel` is the outcome of the remote relevance check,
consulted only when the profanity filter does not fire. -/
def check_and_moderate (max_off_topic_attempts off_topic_count : Nat)
    (current_step bot_question text : String) (rel : RelevanceOutcome) :
    ModerationStep :=
  if detect_offensive_content text then
    if off_topic_count + 1 = 1 then
      ⟨1, false, false, .respectfulToneRequest⟩
    else
      ⟨off_topic_count + 1, true, false, .offensiveFarewell⟩
  else
    match rel with
    | .moderationFailure _ =>
        ⟨off_topic_count, false, true, .noReply⟩
    | .verdict v =>
        if (v.getField "is_relevant").pyTruthy then
          ⟨0, false, true, .noReply⟩
        else
          if should_end_conversation max_off_topic_attempts
              (off_topic_count + 1) then
            ⟨off_topic_count + 1, true, false,
              .redirection (off_topic_count + 1) .jnull⟩
          else
            ⟨off_topic_count + 1, false, false,
              .redirection (off_topic_count + 1) (v.getField "suggestion")⟩

/-- The `off_topic_count` a later `state.get_data` reads after one
`check_and_moderate` call (`state.clear()` wipes it, so the stored
default 0 applies). -/
def storedCountAfter (s : ModerationStep) : Nat :=
  if s.cleared then 0 else s.off_topic_count

/-- Source lines 425-428: keywords of formats published with an image. -/
def with_image_keywords : List String :=
  ["пост", "статья", "публикация", "заметка", "блог",
   "instagram", "facebook", "vk", "telegram", "соцсет"]

/-- Source lines 431-434: keywords of formats without an image. -/
def without_image_keywords : List String :=
  ["сценарий", "скрипт", "инструкция", "план", "текст",
   "email", "письмо", "рассылка", "описание"]

/-- Embedding of `should_offer_image` (conversation.py lines 412-446). -/
def should_offer_image (format_type : String) : Bool :=
  if without_image_keywords.any
      (fun k => strContains (pyLower format_type) k) then false
  else if with_image_keywords.any
      (fun k => strContains (pyLower format_type) k) then true
  else true

/-! ## Concrete fixtures -/

/-- Chat outcome: a response with `choices == []`. -/
def zeroChoicesOutcome : ChatOutcome := .response ⟨[]⟩

/-- Chat outcome: a refusal (`message.refusal` set, no content). -/
def refusalOutcome : ChatOutcome :=
  .response ⟨[⟨"stop", ⟨some "I cannot assist with that request", none⟩⟩]⟩

/-- Chat outcome: empty text content with a normal finish reason. -/
def emptyContentOutcome : ChatOutcome :=
  .response ⟨[⟨"stop", ⟨none, some ""⟩⟩]⟩

/-- Chat outcome: a length-truncated response with no content. -/
def lengthTruncatedOutcome : ChatOutcome :=
  .response ⟨[⟨"length", ⟨none, none⟩⟩]⟩

/-- Chat outcome: a successful response carrying the payload the decode
oracle will interpret. -/
def moderationOkOutcome : ChatOutcome :=
  .response ⟨[⟨"stop", ⟨none, some "verdict"⟩⟩]⟩

/-- A well-formed idea item with the given `id` value. -/
def wfIdeaItem (idv : JsonVal) : JsonVal :=
  .jobj [("id", idv), ("title", .jstr "Заголовок"),
         ("description", .jstr "Описание"), ("key_elements", .jlist [])]

/-- A parsed ideas response whose five items carry scrambled integer ids. -/
def scrambledIdeasResult : JsonVal :=
  .jobj [("ideas", .jlist
    [wfIdeaItem (.jint 2), wfIdeaItem (.jint 1), wfIdeaItem (.jint 3),
     wfIdeaItem (.jint 4), wfIdeaItem (.jint 5)])]

/-- An off-topic moderation verdict. -/
def offTopicVerdictFixture : JsonVal :=
  .jobj [("is_relevant", .jbool false), ("reason", .jstr "не по теме"),
         ("suggestion", .jstr "Вернемся к теме")]

/-- A relevant moderation verdict that lacks the `suggestion` key. -/
def verdictMissingSuggestion : JsonVal :=
  .jobj [("is_relevant", .jbool true), ("reason", .jstr "по теме")]

/-- A relevant moderation verdict with all three keys, `suggestion`
null. -/
def verdictFullFixture : JsonVal :=
  .jobj [("is_relevant", .jbool true), ("reason", .jstr "по теме"),
         ("suggestion", .jnull)]

/-- Did the run end in a raised error? -/
def exceptErrored : Except String JsonVal → Bool
  | .error _ => true
  | .ok _ => false

/-! ## Helper lemmas on the JSON model -/

theorem lookupEntry_setEntry_self (key : String) (v : JsonVal)
    (l : List (String × JsonVal)) :
    lookupEntry key (setEntry key v l) = some v := by
  induction l with
  | nil => simp [setEntry, lookupEntry]
  | cons kv t ih =>
      by_cases hk : kv.1 == key
      · simp [setEntry, lookupEntry, hk]
      · simp [setEntry, lookupEntry, hk, ih]

theorem lookupEntry_setEntry_ne (key x : String) (v : JsonVal)
    (l : List (String × JsonVal)) (hne : x ≠ key) :
    lookupEntry x (setEntry key v l) = lookupEntry x l := by
  induction l with
  | nil =>
      have hx : (key == x) = false := by
        simp only [beq_eq_false_iff_ne]
        exact fun h => hne h.symm
      simp [setEntry, lookupEntry, hx]
  | cons kv t ih =>
      by_cases hk : kv.1 == key
      · have hkey : kv.1 = key := by simpa using hk
        have hx : (kv.1 == x) = false := by
          simp only [beq_eq_false_iff_ne, hkey]
          exact fun h => hne h.symm
        simp [setEntry, lookupEntry, hk, hx]
      · simp [setEntry, lookupEntry, hk, ih]

/-- Writing key `k` does not change what key `x` with `x ≠ k` reads. -/
theorem JsonVal.getField_setField_ne (w : JsonVal) (k x : String)
    (v : JsonVal) (hne : x ≠ k) :
    (w.setField k v).getField x = w.getField x := by
  cases w with
  | jobj fields =>
      simp only [JsonVal.setField, JsonVal.getField]
      rw [lookupEntry_setEntry_ne k x v fields hne]
  | jnull => rfl
  | jbool b => rfl
  | jint n => rfl
  | jstr s => rfl
  | jlist xs => rfl

/-- Writing key `k` into an object makes `k` read the written value. -/
theorem JsonVal.getField_setField_self (w : JsonVal) (k : String)
    (v : JsonVal) (h : w.hasField k = true) :
    (w.setField k v).getField k = v := by
  cases w with
  | jobj fields =>
      simp only [JsonVal.setField, JsonVal.getField]
      rw [lookupEntry_setEntry_self k v fields]
      rfl
  | jnull => exact Bool.noConfusion h
  | jbool b => exact Bool.noConfusion h
  | jint n => exact Bool.noConfusion h
  | jstr s => exact Bool.noConfusion h
  | jlist xs => exact Bool.noConfusion h

/-! ## Lemmas on the idea validation loop -/

theorem wf_hasField_id (idea : JsonVal) (h : wellFormedIdea idea = true) :
    idea.hasField "id" = true := by
  have h1 := (Bool.and_eq_true _ _).mp h |>.1
  simp only [ideaRequiredFields, List.all_cons, List.all_nil,
    Bool.and_eq_true] at h1
  exact h1.1

theorem repairIdea_key_elements (i : Nat) (idea : JsonVal)
    (hid : idea.hasField "id" = true) :
    (repairIdea i idea).getField "key_elements" =
      idea.getField "key_elements" := by
  unfold repairIdea
  by_cases hint : (idea.getField "id").pyIsInt
  · simp [hint]
  · simp only [hint, if_neg, Bool.false_eq_true, ite_false]
    exact JsonVal.getField_setField_ne idea "id" "key_elements" (.jint i)
      (by decide)

theorem validateIdeaItem_of_wf (i : Nat) (idea : JsonVal)
    (h : wellFormedIdea idea = true) :
    validateIdeaItem i idea = .ok (repairIdea i idea) := by
  have hall := (Bool.and_eq_true _ _).mp h |>.1
  have hkey := (Bool.and_eq_true _ _).mp h |>.2
  unfold validateIdeaItem
  rw [repairIdea_key_elements i idea (wf_hasField_id idea h)]
  simp [hall, hkey]

theorem validateIdeaItem_of_bad (i : Nat) (idea : JsonVal)
    (h : wellFormedIdea idea = false) :
    ∃ e, validateIdeaItem i idea = .error e := by
  unfold validateIdeaItem
  by_cases hall : ideaRequiredFields.all (fun f => idea.hasField f)
  · have hkey : (idea.getField "key_elements").pyIsList = false := by
      have := h
      unfold wellFormedIdea at this
      rw [hall] at this
      simpa using this
    have hid : idea.hasField "id" = true := by
      simp only [ideaRequiredFields, List.all_cons, List.all_nil,
        Bool.and_eq_true] at hall
      exact hall.1
    rw [repairIdea_key_elements i idea hid]
    simp [hall, hkey]
  · simp [hall]

theorem validateIdeaItems_of_wf (i : Nat) (items : List JsonVal)
    (h : items.all wellFormedIdea = true) :
    validateIdeaItems i items = .ok (repairIdeas i items) := by
  induction items generalizing i with
  | nil => rfl
  | cons a t ih =>
      have ha : wellFormedIdea a = true := by
        simp only [List.all_cons, Bool.and_eq_true] at h
        exact h.1
      have ht : t.all wellFormedIdea = true := by
        simp only [List.all_cons, Bool.and_eq_true] at h
        exact h.2
      simp only [validateIdeaItems, validateIdeaItem_of_wf i a ha, ih (i + 1) ht,
        repairIdeas]

theorem validateIdeaItems_length (i : Nat) (items : List JsonVal)
    (l : List JsonVal) (h : validateIdeaItems i items = .ok l) :
    l.length = items.length := by
  induction items generalizing i l with
  | nil =>
      simp only [validateIdeaItems] at h
      cases h
      rfl
  | cons a t ih =>
      simp only [validateIdeaItems] at h
      cases hv : validateIdeaItem i a with
      | error e => rw [hv] at h; exact absurd h (by simp)
      | ok b =>
          rw [hv] at h
          cases hr : validateIdeaItems (i + 1) t with
          | error e => rw [hr] at h; exact absurd h (by simp)
          | ok rest =>
              rw [hr] at h
              cases h
              simp [ih (i + 1) rest hr]

theorem validateIdeaItems_of_bad (i : Nat) (items : List JsonVal) (k : Nat)
    (hk : k < items.length)
    (hbad : wellFormedIdea (items.getD k .jnull) = false) :
    ∃ e, validateIdeaItems i items = .error e := by
  induction items generalizing i k with
  | nil => exact absurd hk (by simp)
  | cons a t ih =>
      cases k with
      | zero =>
          have ha : wellFormedIdea a = false := by simpa using hbad
          obtain ⟨e, he⟩ := validateIdeaItem_of_bad i a ha
          exact ⟨e, by simp [validateIdeaItems, he]⟩
      | succ m =>
          cases hv : validateIdeaItem i a with
          | error e => exact ⟨e, by simp [validateIdeaItems, hv]⟩
          | ok b =>
              obtain ⟨e, he⟩ := ih (i + 1) m (by simpa using hk)
                (by simpa using hbad)
              exact ⟨e, by simp [validateIdeaItems, hv, he]⟩

theorem repairIdeas_length (i : Nat) (items : List JsonVal) :
    (repairIdeas i items).length = items.length := by
  induction items generalizing i with
  | nil => rfl
  | cons a t ih => simp [repairIdeas, ih (i + 1)]

theorem repairIdeas_getD_id (i k : Nat) (items : List JsonVal)
    (hk : k < items.length) (hwf : items.all wellFormedIdea = true) :
    ((repairIdeas i items).getD k .jnull).getField "id" =
      (if ((items.getD k .jnull).getField "id").pyIsInt then
        (items.getD k .jnull).getField "id"
      else .jint (i + k)) := by
  induction items generalizing i k with
  | nil => exact absurd hk (by simp)
  | cons a t ih =>
      have ha : wellFormedIdea a = true := by
        simp only [List.all_cons, Bool.and_eq_true] at hwf
        exact hwf.1
      have ht : t.all wellFormedIdea = true := by
        simp only [List.all_cons, Bool.and_eq_true] at hwf
        exact hwf.2
      cases k with
      | zero =>
          simp only [repairIdeas, List.getD_cons_zero]
          unfold repairIdea
          by_cases hint : (a.getField "id").pyIsInt
          · simp [hint]
          · simp only [hint, Bool.false_eq_true, ite_false]
            rw [JsonVal.getField_setField_self a "id" (.jint i)
              (wf_hasField_id a ha)]
            norm_num
      | succ m =>
          simp only [repairIdeas, List.getD_cons_succ]
          rw [ih (i + 1) m (by simpa using hk) ht]
          have harith : ((i : Int) + 1 + m) = (i : Int) + (m + 1) := by ring
          push_cast
          rw [harith]

theorem generate_ideas_jobj (items : List JsonVal) :
    generate_ideas (.jobj [("ideas", .jlist items)]) =
      (if items.length < 5 then .error "fewer than 5 ideas"
      else validateIdeaItems 1 (items.take 5)) := rfl

/-! ## Claim theorems: idea generation -/

/-- C5 counterexample: a well-formed 5-item response whose `id` fields
are the scrambled integers 2,1,3,4,5 is returned with those very ids,
not with ids 1..5 in order — integer ids are never reassigned. -/
theorem C5_counterexample :
    ideasIdList (generate_ideas scrambledIdeasResult) =
      [.jint 2, .jint 1, .jint 3, .jint 4, .jint 5] ∧
    [JsonVal.jint 2, .jint 1, .jint 3, .jint 4, .jint 5] ≠
      [JsonVal.jint 1, .jint 2, .jint 3, .jint 4, .jint 5] := by
  refine ⟨rfl, fun h => ?_⟩
  injection h with h1 _
  injection h1 with h2
  exact absurd h2 (by decide)

/-- C5 (amended): for a well-formed structured response of exactly 5
idea items, `generate_ideas` returns exactly 5 records; an item whose
`id` is not an integer gets `id` reassigned to its 1-based position,
while an integer `id` — scrambled or not — is kept unchanged. -/
theorem C5_amended_ids (items : List JsonVal) (hlen : items.length = 5)
    (hwf : items.all wellFormedIdea = true) :
    ∃ l, generate_ideas (.jobj [("ideas", .jlist items)]) = .ok l ∧
      l.length = 5 ∧
      ∀ k, k < 5 →
        (l.getD k .jnull).getField "id" =
          (if ((items.getD k .jnull).getField "id").pyIsInt then
            (items.getD k .jnull).getField "id"
          else .jint (k + 1)) := by
  rw [generate_ideas_jobj, if_neg (by omega)]
  have htake : items.take 5 = items := by
    rw [← hlen]
    exact List.take_length items
  rw [htake, validateIdeaItems_of_wf 1 items hwf]
  refine ⟨repairIdeas 1 items, rfl, ?_, ?_⟩
  · rw [repairIdeas_length, hlen]
  · intro k hk
    rw [repairIdeas_getD_id 1 k items (by omega) hwf]
    have harith : ((1 : Int) + k) = (k : Int) + 1 := by ring
    push_cast
    rw [harith]

/-- C5 amended witness: a concrete batch with ids "a", 7, null, 4, null
comes back with ids 1, 7, 3, 4, 5. -/
theorem C5_amended_ids_witness :
    ∃ l, generate_ideas (.jobj [("ideas", .jlist
        [wfIdeaItem (.jstr "a"), wfIdeaItem (.jint 7), wfIdeaItem .jnull,
         wfIdeaItem (.jint 4), wfIdeaItem .jnull])]) = .ok l ∧
      l.length = 5 ∧
      ∀ k, k < 5 →
        (l.getD k .jnull).getField "id" =
          (if (([wfIdeaItem (.jstr "a"), wfIdeaItem (.jint 7),
              wfIdeaItem .jnull, wfIdeaItem (.jint 4),
              wfIdeaItem .jnull].getD k .jnull).getField "id").pyIsInt then
            ([wfIdeaItem (.jstr "a"), wfIdeaItem (.jint 7), wfIdeaItem .jnull,
              wfIdeaItem (.jint 4), wfIdeaItem .jnull].getD k .jnull).getField
              "id"
          else .jint (k + 1)) :=
  C5_amended_ids _ rfl rfl

/-- C6: a successful `generate_ideas` always returns exactly 5 ideas; a
parsed response with fewer than 5 items fails; a response with more than
5 items is decided by its first 5 items alone (silent truncation); a
missing required field or a non-list `key_elements` among the first 5
items fails. -/
theorem C6_batch_size_and_validation (result : JsonVal)
    (items : List JsonVal) :
    (∀ l, generate_ideas result = .ok l → l.length = 5) ∧
    (items.length < 5 →
      ∃ e, generate_ideas (.jobj [("ideas", .jlist items)]) = .error e) ∧
    (5 ≤ items.length →
      generate_ideas (.jobj [("ideas", .jlist items)]) =
        generate_ideas (.jobj [("ideas", .jlist (items.take 5))])) ∧
    (∀ k, k < 5 → k < items.length →
      wellFormedIdea (items.getD k .jnull) = false →
      ∃ e, generate_ideas (.jobj [("ideas", .jlist items)]) = .error e) := by
  refine ⟨?_, ?_, ?_, ?_⟩
  · intro l h
    unfold generate_ideas at h
    cases hf : result.hasField "ideas" with
    | false => rw [hf] at h; exact absurd h (by simp)
    | true =>
        rw [hf] at h
        simp only [Bool.not_true, Bool.false_eq_true, ite_false] at h
        split at h
        · split at h
          · exact absurd h (by simp)
          · rename_i x ideas heq hlen
            have := validateIdeaItems_length 1 (ideas.take 5) l h
            rw [List.length_take] at this
            omega
        · exact absurd h (by simp)
  · intro hlt
    rw [generate_ideas_jobj, if_pos hlt]
    exact ⟨_, rfl⟩
  · intro hge
    rw [generate_ideas_jobj, generate_ideas_jobj, if_neg (by omega),
      if_neg (by rw [List.length_take]; omega)]
    rw [List.take_take]
    simp
  · intro k hk5 hklen hbad
    by_cases hlt : items.length < 5
    · rw [generate_ideas_jobj, if_pos hlt]
      exact ⟨_, rfl⟩
    · rw [generate_ideas_jobj, if_neg hlt]
      apply validateIdeaItems_of_bad 1 (items.take 5) k
      · rw [List.length_take]; omega
      · have : (items.take 5).getD k .jnull = items.getD k .jnull := by
          unfold List.getD
          rw [List.get?_take hk5]
        rw [this]
        exact hbad

/-- C6 witness: a 3-item response fails. -/
theorem C6_batch_size_witness :
    ∃ e, generate_ideas (.jobj [("ideas", .jlist
      [wfIdeaItem (.jint 1), wfIdeaItem (.jint 2), wfIdeaItem (.jint 3)])]) =
      .error e :=
  (C6_batch_size_and_validation .jnull _).2.1 (by decide)

/-! ## Lemmas on the client error classification -/

theorem classifyOtherException_not_gen (msg : String) :
    (classifyOtherException msg).isGen = false := by
  unfold classifyOtherException
  split_ifs <;> rfl

/-- The blanket `except Exception` clause re-classifies every exception
raised in the try-body, so `chat_completion` can never let its own
`GenerationError` out. -/
theorem chat_completion_never_generationError (o : ChatOutcome) :
    isGenerationError (chat_completion o) = false := by
  cases o with
  | timeoutRaised => rfl
  | connectErrorRaised => rfl
  | otherRaised msg => exact classifyOtherException_not_gen msg
  | response r =>
      cases hec : extractChatContent r with
      | ok c => simp [chat_completion, hec, isGenerationError]
      | error m =>
          simp only [chat_completion, hec]
          exact classifyOtherException_not_gen m

/-! ## Claim theorems: client and post pipeline -/

/-- C2: the three generation-failure conditions of `chat_completion` —
zero choices, a refusal flag, empty content — do not surface as
`GenerationError`. The internal `GenerationError` is caught by the
function's own blanket `except Exception` clause and re-raised as the
generic `APIError`, one of the transport-failure kinds; in fact no
outcome whatsoever makes `chat_completion` raise `GenerationError`. -/
theorem C2_generation_failures_wrapped_as_apiError :
    (∀ o, isGenerationError (chat_completion o) = false) ∧
    isGenericApiError (chat_completion zeroChoicesOutcome) = true ∧
    isGenericApiError (chat_completion refusalOutcome) = true ∧
    isGenericApiError (chat_completion emptyContentOutcome) = true :=
  ⟨chat_completion_never_generationError, rfl, rfl, rfl⟩

/-- C1: `generate_post_text` never issues a second (fallback) request —
for every outcome of the stage-1 request exactly one request is made, on
the primary model — because the matching `GenerationError` it waits for
is never raised by `chat_completion`; concretely, a length-truncated
stage-1 response (finish_reason "length", no content) produces a single
request and a raised error instead of the claimed gpt-4o retry. -/
theorem C1_no_fallback_request :
    (∀ (decode : String → Option JsonVal) (primaryModel : String)
      (o1 o2 : ChatOutcome),
      (generate_post_text decode primaryModel o1 o2).models = [primaryModel]) ∧
    (generate_post_text (fun _ => none) "gpt-5" lengthTruncatedOutcome
      zeroChoicesOutcome).models = ["gpt-5"] ∧
    exceptErrored (generate_post_text (fun _ => none) "gpt-5"
      lengthTruncatedOutcome zeroChoicesOutcome).outcome = true := by
  refine ⟨?_, rfl, rfl⟩
  intro decode primaryModel o1 o2
  unfold generate_post_text
  cases h : chat_completion o1 with
  | ok resp => rfl
  | error e =>
      cases e with
      | generationError m =>
          have hng := chat_completion_never_generationError o1
          rw [h] at hng
          exact Bool.noConfusion hng
      | apiConnectionError m => rfl
      | apiRateLimitError m ra => rfl
      | apiAuthenticationError m => rfl
      | apiError m => rfl

/-- The prefix set the claim describes: next-generation / reasoning
model families, matched case-insensitively at the start of the name. -/
def nextGenMarkers : List String :=
  ["gpt-5", "o1-preview", "o1-mini", "o3-mini", "o3"]

/-- Does the model name start, case-insensitively, with one of the
next-generation markers? -/
def isNextGenModelName (model : String) : Bool :=
  nextGenMarkers.any (fun m => strStartsWith (pyLower model) m)

/-- C7: for every model name matching the next-generation/reasoning
prefix set, the outgoing request omits the temperature field and carries
the token limit as `max_completion_tokens`; for every other model name
the temperature field is present and the limit travels as `max_tokens`.
The decision is a pure function of the model name string. -/
theorem C7_model_adaptation (model : String) (n : Nat) (h : 0 < n) :
    (isNextGenModelName model = true →
      (buildChatRequestParams model (some n)).temperatureIncluded = false ∧
      (buildChatRequestParams model (some n)).tokenLimit =
        some (.max_completion_tokens n)) ∧
    (isNextGenModelName model = false →
      (buildChatRequestParams model (some n)).temperatureIncluded = true ∧
      (buildChatRequestParams model (some n)).tokenLimit =
        some (.max_tokens n)) := by
  have hn : ¬ n = 0 := by omega
  have e1 : uses_max_completion_tokens model = isNextGenModelName model := rfl
  have e2 : supports_custom_temperature model = !isNextGenModelName model := rfl
  constructor <;> intro hm <;>
    simp [buildChatRequestParams, e1, e2, hm, hn]

/-- C7 witness at `"GPT-5"` (matches case-insensitively) and
`"gpt-4o-mini"` (does not match), with token limit 100. -/
theorem C7_model_adaptation_witness :
    ((buildChatRequestParams "GPT-5" (some 100)).temperatureIncluded = false ∧
     (buildChatRequestParams "GPT-5" (some 100)).tokenLimit =
       some (.max_completion_tokens 100)) ∧
    ((buildChatRequestParams "gpt-4o-mini" (some 100)).temperatureIncluded =
       true ∧
     (buildChatRequestParams "gpt-4o-mini" (some 100)).tokenLimit =
       some (.max_tokens 100)) :=
  ⟨(C7_model_adaptation "GPT-5" 100 (by decide)).1 rfl,
   (C7_model_adaptation "gpt-4o-mini" 100 (by decide)).2 rfl⟩

/-! ## Claim theorems: moderation and conversation -/

/-- C3 counterexample: in a fresh session, one off-topic utterance
(stored count becomes 1, session kept) followed by the session's first
profanity-flagged utterance clears the session — so a single
profanity-flagged utterance can terminate the session when off-topic
utterances preceded it, contradicting the claim. -/
theorem C3_counterexample :
    detect_offensive_content "расскажи анекдот" = false ∧
    detect_offensive_content "сука" = true ∧
    (check_and_moderate 3 0 "COLLECTING_NICHE" "Какая у тебя ниша?"
      "расскажи анекдот" (.verdict offTopicVerdictFixture)).cleared = false ∧
    storedCountAfter (check_and_moderate 3 0 "COLLECTING_NICHE"
      "Какая у тебя ниша?" "расскажи анекдот"
      (.verdict offTopicVerdictFixture)) = 1 ∧
    (check_and_moderate 3 1 "COLLECTING_NICHE" "Какая у тебя ниша?" "сука"
      (.verdict offTopicVerdictFixture)).cleared = true :=
  ⟨rfl, rfl, rfl, rfl, rfl⟩

/-- C3 (amended): a profanity-flagged utterance increments the shared
`off_topic_count`; it produces the respectful-tone warning without
clearing exactly when the incremented count equals 1 (no off-topic or
profanity increments since the last reset), and it clears the session —
regardless of the configured threshold — whenever the incremented count
is 2 or more. Hence two profanity-flagged utterances with no relevant
utterance between always clear, while a single one already clears when
off-topic increments preceded it. -/
theorem C3_amended_profanity_policy (max_attempts count : Nat)
    (step question text : String) (rel : RelevanceOutcome)
    (hoff : detect_offensive_content text = true) :
    ((check_and_moderate max_attempts count step question text
        rel).off_topic_count = count + 1) ∧
    (count = 0 →
      check_and_moderate max_attempts count step question text rel =
        ⟨1, false, false, .respectfulToneRequest⟩) ∧
    (0 < count →
      check_and_moderate max_attempts count step question text rel =
        ⟨count + 1, true, false, .offensiveFarewell⟩) := by
  cases count with
  | zero => refine ⟨?_, fun _ => ?_, fun hpos => absurd hpos (by omega)⟩ <;>
      simp [check_and_moderate, hoff]
  | succ m =>
      refine ⟨?_, fun h0 => absurd h0 (by omega), fun _ => ?_⟩ <;>
        simp [check_and_moderate, hoff]

/-- C3 amended witness: applied at `"бля"` with counts 0 and 1. -/
theorem C3_amended_profanity_policy_witness :
    check_and_moderate 3 0 "COLLECTING_GOAL" "Какая цель?" "бля"
      (.moderationFailure "сбой") =
      ⟨1, false, false, .respectfulToneRequest⟩ ∧
    check_and_moderate 3 1 "COLLECTING_GOAL" "Какая цель?" "бля"
      (.moderationFailure "сбой") =
      ⟨2, true, false, .offensiveFarewell⟩ :=
  ⟨(C3_amended_profanity_policy 3 0 "COLLECTING_GOAL" "Какая цель?" "бля"
      (.moderationFailure "сбой") rfl).2.1 rfl,
   (C3_amended_profanity_policy 3 1 "COLLECTING_GOAL" "Какая цель?" "бля"
      (.moderationFailure "сбой") rfl).2.2 (by omega)⟩

/-- C4: within a session, for a non-profanity utterance, an off-topic
verdict increments `off_topic_count` by exactly 1, a relevant verdict
resets it to 0 (accepting the utterance, no clear), the transition does
not depend on the dialogue step or its question (the counter carries
unchanged across steps), the session is cleared on an off-topic verdict
exactly when the incremented count exceeds the configured maximum
(default 3), and neither a relevant verdict nor a failed moderation
call ever clears. -/
theorem C4_off_topic_counter (max_attempts count : Nat)
    (step1 question1 step2 question2 text : String) (v : JsonVal)
    (rel : RelevanceOutcome)
    (hoff : detect_offensive_content text = false) :
    ((v.getField "is_relevant").pyTruthy = false →
      (check_and_moderate max_attempts count step1 question1 text
        (.verdict v)).off_topic_count = count + 1) ∧
    ((v.getField "is_relevant").pyTruthy = true →
      check_and_moderate max_attempts count step1 question1 text
        (.verdict v) = ⟨0, false, true, .noReply⟩) ∧
    (check_and_moderate max_attempts count step1 question1 text rel =
      check_and_moderate max_attempts count step2 question2 text rel) ∧
    ((v.getField "is_relevant").pyTruthy = false →
      ((check_and_moderate max_attempts count step1 question1 text
          (.verdict v)).cleared = true ↔ count + 1 > max_attempts)) ∧
    (∀ m, (check_and_moderate max_attempts count step1 question1 text
      (.moderationFailure m)).cleared = false) ∧
    max_off_topic_attempts_default = 3 := by
  refine ⟨?_, ?_, rfl, ?_, ?_, rfl⟩
  · intro hv
    by_cases hgt : count + 1 > max_attempts <;>
      simp [check_and_moderate, hoff, hv, should_end_conversation, hgt]
  · intro hv
    simp [check_and_moderate, hoff, hv]
  · intro hv
    by_cases hgt : count + 1 > max_attempts <;>
      simp [check_and_moderate, hoff, hv, should_end_conversation, hgt]
  · intro m
    simp [check_and_moderate, hoff]

/-- C4 witness: with the default threshold 3 and a carried count of 3,
a fourth off-topic verdict raises the count to 4 and clears the
session; a relevant verdict instead resets the count to 0. -/
theorem C4_off_topic_counter_witness :
    (check_and_moderate 3 3 "COLLECTING_NICHE" "Какая у тебя ниша?" "привет"
      (.verdict offTopicVerdictFixture)).off_topic_count = 4 ∧
    (check_and_moderate 3 3 "COLLECTING_NICHE" "Какая у тебя ниша?" "привет"
      (.verdict offTopicVerdictFixture)).cleared = true ∧
    check_and_moderate 3 3 "COLLECTING_NICHE" "Какая у тебя ниша?" "привет"
      (.verdict verdictFullFixture) = ⟨0, false, true, .noReply⟩ :=
  ⟨(C4_off_topic_counter 3 3 "COLLECTING_NICHE" "Какая у тебя ниша?" "x" "y"
      "привет" offTopicVerdictFixture (.verdict offTopicVerdictFixture)
      rfl).1 rfl,
   ((C4_off_topic_counter 3 3 "COLLECTING_NICHE" "Какая у тебя ниша?" "x" "y"
      "привет" offTopicVerdictFixture (.verdict offTopicVerdictFixture)
      rfl).2.2.2.1 rfl).mpr (by omega),
   (C4_off_topic_counter 3 3 "COLLECTING_NICHE" "Какая у тебя ниша?" "x" "y"
      "привет" verdictFullFixture (.verdict verdictFullFixture)
      rfl).2.1 rfl⟩

/-- C9: when the remote relevance check raises `ModerationError`, the
caller swallows it and treats the utterance as relevant: the call
returns acceptance with `off_topic_count` unchanged, no session clear
and no reply. -/
theorem C9_moderation_fail_open (max_attempts count : Nat)
    (step question text msg : String)
    (hoff : detect_offensive_content text = false) :
    check_and_moderate max_attempts count step question text
      (.moderationFailure msg) = ⟨count, false, true, .noReply⟩ := by
  simp [check_and_moderate, hoff]

/-- C9 witness: a concrete failed moderation call leaves a carried count
of 2 untouched and accepts the utterance. -/
theorem C9_moderation_fail_open_witness :
    check_and_moderate 3 2 "COLLECTING_FORMAT" "Какой формат?"
      "интересная тема" (.moderationFailure
        "Не удалось проверить релевантность: сбой") =
      ⟨2, false, true, .noReply⟩ :=
  C9_moderation_fail_open 3 2 "COLLECTING_FORMAT" "Какой формат?"
    "интересная тема" "Не удалось проверить релевантность: сбой" rfl

/-- C8: the illustration-offer classifier is a deterministic function of
the format string; any no-illustration keyword match forces `false`
with precedence, and in the absence of a no-illustration match the
result is `true` (whether a with-illustration keyword matches or not);
concretely: "Пост для Instagram" → true, "Сценарий для видео" → false,
and the unrecognized "Кроссворд" → true. -/
theorem C8_illustration_classifier (format_type : String) :
    (without_image_keywords.any
        (fun k => strContains (pyLower format_type) k) = true →
      should_offer_image format_type = false) ∧
    (without_image_keywords.any
        (fun k => strContains (pyLower format_type) k) = false →
      should_offer_image format_type = true) ∧
    should_offer_image "Пост для Instagram" = true ∧
    should_offer_image "Сценарий для видео" = false ∧
    should_offer_image "Кроссворд" = true := by
  refine ⟨?_, ?_, rfl, rfl, rfl⟩
  · intro h
    simp [should_offer_image, h]
  · intro h
    simp only [should_offer_image, h, Bool.false_eq_true, ite_false]
    split <;> rfl

/-- C8 witness: the two general clauses applied to "Сценарий для видео"
(no-illustration keyword wins) and "Кроссворд" (no keyword at all). -/
theorem C8_illustration_classifier_witness :
    should_offer_image "Сценарий для видео" = false ∧
    should_offer_image "Кроссворд" = true :=
  ⟨(C8_illustration_classifier "Сценарий для видео").1 rfl,
   (C8_illustration_classifier "Кроссворд").2.1 rfl⟩

/-- C10 counterexample: a parsed moderation verdict containing
`is_relevant` and `reason` but no `suggestion` key makes
`check_relevance` raise a `ModerationError` instead of returning the
verdict — `suggestion` is required to be present by the validation. -/
theorem C10_counterexample :
    verdictMissingSuggestion.hasField "is_relevant" = true ∧
    verdictMissingSuggestion.hasField "reason" = true ∧
    (∃ e, check_relevance (fun _ => some verdictMissingSuggestion)
      moderationOkOutcome = .error e) :=
  ⟨rfl, rfl, ⟨"Отсутствует поле в ответе модерации", rfl⟩⟩

/-- C10 (amended): `check_relevance` returns the parsed verdict without
raising exactly when all three keys `is_relevant`, `reason` and
`suggestion` are present; the `suggestion` value itself may be null —
only the key must exist. -/
theorem C10_amended_validation (decode : String → Option JsonVal)
    (o : ChatOutcome) (resp : String) (v : JsonVal)
    (hok : chat_completion o = .ok resp) (hdec : decode resp = some v)
    (h1 : v.hasField "is_relevant" = true) (h2 : v.hasField "reason" = true)
    (h3 : v.hasField "suggestion" = true) :
    check_relevance decode o = .ok v := by
  simp [check_relevance, hok, hdec, check_relevance_validate, h1, h2, h3]

/-- C10 amended witness: a verdict with a null `suggestion` value is
returned as-is. -/
theorem C10_amended_validation_witness :
    check_relevance (fun _ => some verdictFullFixture) moderationOkOutcome =
      .ok verdictFullFixture :=
  C10_amended_validation (fun _ => some verdictFullFixture)
    moderationOkOutcome "verdict" verdictFullFixture rfl rfl rfl rfl rfl
